import Mathlib

/-!
# CareerVedha Django backend — verification of the article workflow core

Shallow embedding of the article publishing workflow, feature board,
feed composition, cache-version store and role authority of the
CareerVedha_Django repository (apps/articles, apps/common), together with
proofs and refutations of the specification claims about them.

Conventions:
* Python strings are Lean `String`s; Django nullable datetimes are
  `Option Int` (an abstract integer timeline, ordered like datetimes).
* Database tables are Lean lists of rows; Django querysets are modelled by
  the list operations the views actually perform.
* Exceptions raised by a handler are explicit constructors of the result
  type of the handler.
-/

/-! ## apps/common/permissions.py -/

/-- One left-to-right pass replacing every (non-overlapping) occurrence of
`"ROLE_"` by the empty string, on the character list of the role string.
This is Python's `role.replace("ROLE_", "")`. -/
def replaceRoleMarker : List Char → List Char
  | 'R' :: 'O' :: 'L' :: 'E' :: '_' :: rest => replaceRoleMarker rest
  | c :: cs => c :: replaceRoleMarker cs
  | [] => []

/-- Python's `str.strip()` on a character list (drop whitespace at both ends). -/
def pyStrip (l : List Char) : List Char :=
  ((l.dropWhile Char.isWhitespace).reverse.dropWhile Char.isWhitespace).reverse

/-- Python's `str.upper()` (ASCII-faithful). -/
def pyUpper (l : List Char) : List Char :=
  l.map Char.toUpper

/-- `_normalize_role` from apps/common/permissions.py:
`role.replace("ROLE_", "").strip().upper()`; empty/missing role gives `""`. -/
def normalize_role (role : String) : String :=
  (pyUpper (pyStrip (replaceRoleMarker role.toList))).asString

/-- `ROLE_LEVELS` from apps/common/permissions.py. -/
def ROLE_LEVELS : String → Option Nat := fun r =>
  if r = "CONTRIBUTOR" then some 1
  else if r = "EDITOR" then some 2
  else if r = "PUBLISHER" then some 3
  else if r = "ADMIN" then some 4
  else if r = "SUPER_ADMIN" then some 5
  else none

/-- `get_role_level` from apps/common/permissions.py:
normalizes its argument, then looks it up; unknown role gives 0. -/
def get_role_level (role : String) : Nat :=
  (ROLE_LEVELS (normalize_role role)).getD 0

/-- `require_min_role` from apps/common/permissions.py, as the predicate
"raises `PermissionDenied`".  Note the source normalizes the user's role
once explicitly and then a second time inside `get_role_level`, while the
minimum role is normalized only once (inside `get_role_level`). -/
def require_min_role_raises (userRole minRole : String) : Bool :=
  get_role_level (normalize_role userRole) < get_role_level minRole


/-! ## apps/articles/cache.py -/

/-- The cache slot holding the `articles:ver` key: absent, or a value with
its timeout (`none` timeout = never expires). -/
abbrev CacheSlot : Type := Option (Int × Option Nat)

/-- `get_articles_cache_version` from apps/articles/cache.py: returns the
stored integer; when the key is absent it stores 1 with no timeout and
returns 1.  (In this integer-valued model the `int(ver)` coercion of the
source never fails, so its reset branch is not reachable.)
Result: (returned version, cache state after the call). -/
def get_articles_cache_version : CacheSlot → Int × CacheSlot
  | none => (1, some (1, none))
  | some (v, t) => (v, some (v, t))

/-- Django's `cache.incr` on the version key: increments in place when the
key exists, raises (`none`) when it is absent. -/
def cache_incr : CacheSlot → Option CacheSlot
  | none => none
  | some (v, t) => some (some (v + 1, t))

/-- `bump_articles_cache_version` from apps/articles/cache.py: tries the
atomic increment, and on failure falls back to
`get_articles_cache_version` followed by a plain `set` of version + 1
with no timeout. -/
def bump_articles_cache_version (c : CacheSlot) : CacheSlot :=
  match cache_incr c with
  | some c' => c'
  | none =>
    let (ver, _) := get_articles_cache_version c
    some (ver + 1, none)


/-! ## apps/articles/models.py — data model -/

/-- String helper: Python `s.strip()`. -/
def pyStripStr (s : String) : String := (pyStrip s.toList).asString

/-- String helper: Python `s.upper()`. -/
def pyUpperStr (s : String) : String := (pyUpper s.toList).asString

/-- String helper: Python `s.lower().strip()` (used by `prioritized_title`). -/
def pyLowerStripStr (s : String) : String := (pyStrip (s.toList.map Char.toLower)).asString

/-- `ArticleTranslation` row (title/content/summary per (article, language)). -/
structure Translation where
  language : String
  title : String
  content : String
  summary : String
deriving DecidableEq

/-- `Article` row, restricted to the fields the verified operations read or
write.  `category_ids` stands for the `article_categories` join rows and
`translations` for the owned `ArticleTranslation` rows. -/
structure Article where
  id : Nat
  slug : String
  sec : String
  status : String
  noindex : Bool
  published_at : Option Int
  expires_at : Option Int
  updated_by : String
  views_count : Nat
  translations : List Translation
  category_ids : List Nat
deriving DecidableEq

/-- `Article.prioritized_title` from apps/articles/models.py:
English first (language compared after `.lower().strip()`), then Telugu,
then the first translation, else the empty string. -/
def prioritized_title (a : Article) : String :=
  match a.translations.find? (fun t => pyLowerStripStr t.language == "en") with
  | some en => en.title
  | none =>
    match a.translations.find? (fun t => pyLowerStripStr t.language == "te") with
    | some te => te.title
    | none =>
      match a.translations with
      | [] => ""
      | t :: _ => t.title

/-- `ArticleFeature` row. -/
structure Feature where
  id : Nat
  article_id : Nat
  feature_type : String
  sec : String
  rank : Nat
  is_active : Bool
  start_at : Option Int
  end_at : Option Int
deriving DecidableEq

/-- `ArticleFeature.is_live` from apps/articles/models.py, evaluated at
time `t` (the source reads `now()`). -/
def Feature.is_live (f : Feature) (t : Int) : Bool :=
  if f.is_active = false then false
  else if (match f.start_at with | some s => decide (s > t) | none => false) then false
  else if (match f.end_at with | some e => decide (e < t) | none => false) then false
  else true

/-! ## apps/articles/utils.py — translation fallback and cards -/

/-- `get_article_translation` from apps/articles/utils.py: the requested
language if present, else Telugu, else nothing. -/
def get_article_translation (a : Article) (lang : String) : Option Translation :=
  match a.translations.find? (fun t => t.language == lang) with
  | some tr => some tr
  | none => a.translations.find? (fun t => t.language == "te")

/-- `django.utils.html.strip_tags` (framework primitive), modelled as the
single pass removing every maximal `<`…`>` segment. -/
def stripTagsAux : List Char → Bool → List Char
  | [], _ => []
  | c :: cs, true => stripTagsAux cs (c != '>')
  | c :: cs, false =>
    if c = '<' then stripTagsAux cs true else c :: stripTagsAux cs false

/-- `summary_from_content` from apps/articles/utils.py: strip tags,
collapse whitespace like Python's `" ".join(plain.split())`, keep the
first 140 characters, strip. -/
def summary_from_content (html : String) : String :=
  if html = "" then ""
  else
    let plain := (stripTagsAux html.toList false).asString
    let joined := String.intercalate " "
      ((plain.split Char.isWhitespace).filter (fun w => w ≠ ""))
    pyStripStr ((joined.toList.take 140).asString)

/-- The card projection of `prepare_article_card`, restricted to the
fields the claims are about. -/
structure Card where
  id : Nat
  slug : String
  sec : String
  title : String
  summary : String
deriving DecidableEq

/-- `prepare_article_card` from apps/articles/utils.py: resolves the
translation through `get_article_translation` (requested language, else
Telugu) and returns no card at all when that fails; the summary is the
translation's summary or, when empty, the first 140 plain-text characters
of its content. -/
def prepare_article_card (a : Article) (lang : String) : Option Card :=
  match get_article_translation a lang with
  | none => none
  | some tr =>
    some { id := a.id, slug := a.slug, sec := a.sec, title := tr.title,
           summary := if tr.summary ≠ "" then tr.summary else summary_from_content tr.content }

/-! ## apps/articles/views_cms.py — workflow handlers

Each handler is a function from the acting user, the article row, the
cache slot and the list of notifications already sent, to the HTTP
response together with the new article row, cache slot and notification
list.  Raised `PermissionDenied` / `ValidationError` are the `forbidden` /
`badRequest` responses. -/

/-- The HTTP responses the embedded handlers can produce.  `noResponse`
records a handler that falls through without returning a response
(Django then raises: the view returned `None`). -/
inductive HttpOutcome where
  | ok (body : String)
  | badRequest (msg : String)
  | forbidden
  | noResponse
deriving DecidableEq

/-- Result of one CMS handler call. -/
structure CmsResult where
  response : HttpOutcome
  article : Article
  cache : CacheSlot
  notifications : List String
deriving DecidableEq

/-- Does the article have a Telugu translation
(`article.translations.filter(language="te").exists()`)? -/
def has_te (a : Article) : Bool :=
  a.translations.any (fun t => t.language == "te")

/-- `PublishArticle.patch` from apps/articles/views_cms.py: PUBLISHER gate,
then the REVIEW guard, then the Telugu guard; on success sets
status/noindex/published_at/updated_by, notifies and bumps the cache
version. -/
def publish_article_patch (userRole userId : String) (a : Article) (c : CacheSlot)
    (ns : List String) (tNow : Int) : CmsResult :=
  if require_min_role_raises userRole "PUBLISHER" then ⟨.forbidden, a, c, ns⟩
  else if a.status ≠ "REVIEW" then ⟨.badRequest "Must be REVIEW before publish", a, c, ns⟩
  else if has_te a = false then ⟨.badRequest "Telugu translation (te) required", a, c, ns⟩
  else
    let a' := { a with status := "PUBLISHED", noindex := false,
                       published_at := some tNow, updated_by := userId }
    ⟨.ok "published", a', bump_articles_cache_version c, ns ++ ["notify_on_publish"]⟩

/-- `MoveToReview.patch` from apps/articles/views_cms.py (the EDITOR gate
lives in the view's `initial` hook and is modelled as already passed):
Telugu guard first, then the category guard; on success sets
status=REVIEW, notifies and bumps the cache version. -/
def move_to_review_patch (userId : String) (a : Article) (c : CacheSlot)
    (ns : List String) : CmsResult :=
  if has_te a = false then ⟨.badRequest "Telugu translation (te) required", a, c, ns⟩
  else if a.category_ids.isEmpty then ⟨.badRequest "At least 1 category required", a, c, ns⟩
  else
    ⟨.ok "review", { a with status := "REVIEW", updated_by := userId },
      bump_articles_cache_version c, ns ++ ["notify_on_review"]⟩

/-- `ArticleReject.patch` from apps/articles/views_cms.py (the EDITOR gate
lives in the view's `initial` hook): unconditionally sets status=REJECTED
and notifies.  The source never bumps the cache version here and never
returns a response (the method body ends after the notification call). -/
def article_reject_patch (userId : String) (a : Article) (c : CacheSlot)
    (ns : List String) : CmsResult :=
  ⟨.noResponse, { a with status := "REJECTED", updated_by := userId },
    c, ns ++ ["notify_on_reject"]⟩

/-- `DeactivateArticle.patch` from apps/articles/views_cms.py: PUBLISHER
gate, then unconditionally status=INACTIVE, noindex=true, notify, bump.
The source never checks the current status. -/
def deactivate_article_patch (userRole userId : String) (a : Article) (c : CacheSlot)
    (ns : List String) : CmsResult :=
  if require_min_role_raises userRole "PUBLISHER" then ⟨.forbidden, a, c, ns⟩
  else
    ⟨.ok "inactive", { a with status := "INACTIVE", noindex := true, updated_by := userId },
      bump_articles_cache_version c, ns ++ ["notify_on_deactivate"]⟩

/-- `ActivateArticle.patch` from apps/articles/views_cms.py: PUBLISHER
gate, then unconditionally status=DRAFT, noindex=true, notify, bump.
The source never checks the current status. -/
def activate_article_patch (userRole userId : String) (a : Article) (c : CacheSlot)
    (ns : List String) : CmsResult :=
  if require_min_role_raises userRole "PUBLISHER" then ⟨.forbidden, a, c, ns⟩
  else
    ⟨.ok "active", { a with status := "DRAFT", noindex := true, updated_by := userId },
      bump_articles_cache_version c, ns ++ ["notify_on_activate"]⟩

/-! ## apps/articles/views_feature.py — feature board -/

def ALLOWED_FEATURES : List String := ["HERO", "TOP", "BREAKING", "EDITOR_PICK"]

/-- `FEATURE_LIMITS` from apps/articles/views_feature.py (a dict; it is
only ever indexed with a member of `ALLOWED_FEATURES`). -/
def FEATURE_LIMITS (ft : String) : Nat :=
  if ft = "HERO" then 5
  else if ft = "TOP" then 10
  else if ft = "BREAKING" then 1
  else if ft = "EDITOR_PICK" then 10
  else 0

/-- The queryset order `order_by("rank", "-id")`: rank ascending, then id
descending. -/
def featBefore (f g : Feature) : Bool :=
  decide (f.rank < g.rank) || (decide (f.rank = g.rank) && decide (g.id ≤ f.id))

def insertFeat (f : Feature) : List Feature → List Feature
  | [] => [f]
  | g :: gs => if featBefore f g then f :: g :: gs else g :: insertFeat f gs

def sortFeat : List Feature → List Feature
  | [] => []
  | f :: fs => insertFeat f (sortFeat fs)

/-- The active rows of one (feature_type, section) board. -/
def activeFor (db : List Feature) (ft sec : String) : List Feature :=
  db.filter (fun f => f.feature_type == ft && f.sec == sec && f.is_active)

/-- Result of `PinFeature.post`.  `serverError` is the uncaught
`TypeError` Django raises for `live_qs[limit:].update(...)` — calling
`update()` on a sliced queryset ("Cannot update a query once a slice has
been taken"); it carries the database as left behind by the already
executed `update_or_create` (the view runs outside any transaction), with
the cache version not bumped. -/
inductive PinResult where
  | forbidden (db : List Feature) (cache : CacheSlot)
  | badRequest (msg : String) (db : List Feature) (cache : CacheSlot)
  | serverError (db : List Feature) (cache : CacheSlot)
  | featured (feature_id rank : Nat) (db : List Feature) (cache : CacheSlot)
deriving DecidableEq

/-- The capacity-enforcement tail of `PinFeature.post`: the active rows of
the board ordered by (rank, -id); when their count exceeds the limit the
source evaluates `live_qs[limit:].update(is_active=False, end_at=now())`,
which raises a `TypeError` because `update()` is not allowed on a sliced
queryset — so no row is deactivated and the request fails with 500.
Otherwise the cache version is bumped and the feature is reported. -/
def pin_enforce_limit (ftype sec : String) (featId rank : Nat)
    (db2 : List Feature) (c : CacheSlot) : PinResult :=
  let live := sortFeat (activeFor db2 ftype sec)
  if live.length > FEATURE_LIMITS ftype then .serverError db2 c
  else .featured featId rank db2 (bump_articles_cache_version c)

/-- `PinFeature.post` from apps/articles/views_feature.py: EDITOR gate,
PUBLISHED guard, feature-type validation, BREAKING forces rank 0 and other
types clamp the requested rank to at least 1, upsert by
(article, feature_type, section) setting rank and is_active=True, then
capacity enforcement. -/
def pin_feature_post (userRole : String) (article : Article)
    (ftypeRaw sectionRaw : String) (rankReq : Int)
    (db : List Feature) (c : CacheSlot) : PinResult :=
  if require_min_role_raises userRole "EDITOR" then .forbidden db c
  else if article.status ≠ "PUBLISHED" then
    .badRequest "Only PUBLISHED articles can be featured" db c
  else
    let ftype := pyUpperStr (pyStripStr ftypeRaw)
    let sec := pyStripStr sectionRaw
    if ftype ∉ ALLOWED_FEATURES then .badRequest "feature_type: Invalid" db c
    else
      let rank : Nat := if ftype = "BREAKING" then 0 else (max 1 rankReq).toNat
      match db.find? (fun f =>
          f.article_id == article.id && f.feature_type == ftype && f.sec == sec) with
      | some f0 =>
        let db2 := db.map (fun g =>
          if g.id = f0.id then { g with rank := rank, is_active := true } else g)
        pin_enforce_limit ftype sec f0.id rank db2 c
      | none =>
        let newId := (db.map Feature.id).foldl max 0 + 1
        let f : Feature := ⟨newId, article.id, ftype, sec, rank, true, none, none⟩
        pin_enforce_limit ftype sec newId rank (db ++ [f]) c

/-! ## apps/articles/views_section.py — home feed composition -/

/-- `_exclude_expired` combined with the `status`, `noindex` and
`published_at` filters of `_fetch_articles_preserve_order`: can this
article be served publicly at time `t`?  (`published_at__lte=now()`
excludes a null `published_at`.) -/
def resolvable (t : Int) (a : Article) : Bool :=
  a.status == "PUBLISHED" && !a.noindex
    && (match a.published_at with | some p => decide (p ≤ t) | none => false)
    && !(match a.expires_at with | some e => decide (e < t) | none => false)

/-- `_fetch_articles_preserve_order` from apps/articles/views_section.py:
query the resolvable articles among `ids`, then walk `ids` in their given
order, keeping a card only when the article resolved and the card builder
returned one. -/
def fetch_articles_preserve_order (db : List Article) (ids : List Nat)
    (lang : String) (t : Int) : List Card :=
  let m := db.filter (fun a => ids.contains a.id && resolvable t a)
  ids.filterMap (fun i =>
    match m.find? (fun a => a.id == i) with
    | none => none
    | some a => prepare_article_card a lang)

/-- One list comprehension
`[i for i in ids if i not in used and not used.add(i)]` of `HomeFeed.get`:
returns the kept ids and the grown `used` set. -/
def dedupAgainst (used : List Nat) : List Nat → List Nat × List Nat
  | [] => ([], used)
  | i :: is =>
    if i ∈ used then dedupAgainst used is
    else ((i :: (dedupAgainst (i :: used) is).1), (dedupAgainst (i :: used) is).2)

/-- The four deduplication passes of `HomeFeed.get`, in source order
HERO, BREAKING, TOP, MUST_READ over one shared `used` set. -/
def home_feed_dedup (hero breaking top mustRead : List Nat) :
    List Nat × List Nat × List Nat × List Nat :=
  let p1 := dedupAgainst [] hero
  let p2 := dedupAgainst p1.2 breaking
  let p3 := dedupAgainst p2.2 top
  let p4 := dedupAgainst p3.2 mustRead
  (p1.1, p2.1, p3.1, p4.1)

/-! ## Spec-side comparison definitions

These two definitions follow the specification's words, not the source;
they exist to be compared against the source-derived definitions above. -/

/-- The title fallback as the spec words it (§3/§8): "always returns the
`en` title when present, else `te`, else the first translation in
insertion order, else a placeholder". -/
def spec_resolve_title (a : Article) : String :=
  match a.translations.find? (fun t => t.language == "en") with
  | some en => en.title
  | none =>
    match a.translations.find? (fun t => t.language == "te") with
    | some te => te.title
    | none =>
      match a.translations with
      | [] => ""
      | t :: _ => t.title

/-- The role normalization as claim C9 words it: strip one leading
`"ROLE_"`, then uppercase. -/
def claim_normalize_role (r : String) : String :=
  (pyUpper (if r.toList.take 5 = ['R', 'O', 'L', 'E', '_'] then r.toList.drop 5
            else r.toList)).asString

/-- Role levels under the claim's normalization. -/
def claim_role_level (r : String) : Nat :=
  (ROLE_LEVELS (claim_normalize_role r)).getD 0

/-! ## Concrete fixtures used by the claim theorems -/

/-- An article in REVIEW with a Telugu translation and one category. -/
def artC2 : Article :=
  ⟨7, "slug7", "news", "REVIEW", true, none, none, "", 0,
    [⟨"te", "Telugu title", "<p>content</p>", ""⟩], [3]⟩

/-- A published article with an English and a Telugu translation. -/
def artC3 : Article :=
  ⟨6, "slug6", "news", "PUBLISHED", false, some 0, none, "", 0,
    [⟨"en", "English Title", "c", ""⟩, ⟨"te", "Telugu Title", "c", ""⟩], []⟩

/-- An article in REVIEW, about to be rejected. -/
def artC4 : Article :=
  ⟨3, "slug3", "news", "REVIEW", false, none, none, "", 0,
    [⟨"te", "T", "c", ""⟩], [2]⟩

/-- A DRAFT article (neither PUBLISHED nor INACTIVE). -/
def artC5 : Article :=
  ⟨4, "slug4", "news", "DRAFT", false, none, none, "", 0, [], []⟩

/-- A DRAFT article with no Telugu translation and no category. -/
def artC6 : Article :=
  ⟨5, "slug5", "news", "DRAFT", false, none, none, "", 0, [], []⟩

/-- A DRAFT article with a Telugu translation and one category. -/
def artC6b : Article :=
  ⟨8, "slug8", "news", "DRAFT", false, none, none, "", 0,
    [⟨"te", "T", "c", ""⟩], [1]⟩

/-- An active TOP feature on the global board, id and rank `i`,
pointing at article `100 + i`. -/
def mkTopFeat (i : Nat) : Feature := ⟨i, 100 + i, "TOP", "", i, true, none, none⟩

/-- A full TOP board: 10 active global TOP features, ranks 1..10. -/
def dbC1 : List Feature :=
  [mkTopFeat 1, mkTopFeat 2, mkTopFeat 3, mkTopFeat 4, mkTopFeat 5,
   mkTopFeat 6, mkTopFeat 7, mkTopFeat 8, mkTopFeat 9, mkTopFeat 10]

/-- The PUBLISHED article pinned as an 11th TOP feature. -/
def artC1 : Article :=
  ⟨42, "slug42", "", "PUBLISHED", false, some 0, none, "", 0,
    [⟨"te", "T", "c", ""⟩], [1]⟩

/-- The row `PinFeature.post` upserts for `artC1` on the full TOP board. -/
def newFeatC1 : Feature := ⟨11, 42, "TOP", "", 11, true, none, none⟩

/-- An active HERO feature on the global board, id and rank `i`,
pointing at article `200 + i`. -/
def mkHeroFeat (i : Nat) : Feature := ⟨i, 200 + i, "HERO", "", i, true, none, none⟩

/-- A full HERO board: 5 active global HERO features, ranks 1..5. -/
def dbC10 : List Feature :=
  [mkHeroFeat 1, mkHeroFeat 2, mkHeroFeat 3, mkHeroFeat 4, mkHeroFeat 5]

/-- The PUBLISHED article pinned onto the full HERO board with rank 9,
behind every existing entry in (rank asc, id desc) order. -/
def artC10 : Article :=
  ⟨77, "slug77", "", "PUBLISHED", false, some 0, none, "", 0,
    [⟨"te", "T", "c", ""⟩], [1]⟩

/-- The row `PinFeature.post` upserts for `artC10` on the full HERO board. -/
def newFeatC10 : Feature := ⟨6, 77, "HERO", "", 9, true, none, none⟩

/-- A two-article table: article 9 is publicly resolvable at time 0,
article 5 is not (still in DRAFT). -/
def dbC7 : List Article :=
  [⟨9, "slug9", "news", "PUBLISHED", false, some 0, none, "", 0,
     [⟨"te", "T9", "c", "s"⟩], []⟩,
   ⟨5, "slug5b", "news", "DRAFT", false, none, none, "", 0,
     [⟨"te", "T5", "c", "s"⟩], []⟩]

/-! ## Helper lemmas -/

theorem find?_congr_mem {α : Type} (p q : α → Bool) :
    ∀ l : List α, (∀ x ∈ l, p x = q x) → l.find? p = l.find? q
  | [], _ => rfl
  | x :: xs, h => by
    simp only [List.find?]
    rw [h x (by simp)]
    cases hq : q x with
    | true => rfl
    | false => exact find?_congr_mem p q xs (fun y hy => h y (by simp [hy]))

theorem prepare_article_card_id (a : Article) (lang : String) (c : Card)
    (h : prepare_article_card a lang = some c) : c.id = a.id := by
  unfold prepare_article_card at h
  cases hg : get_article_translation a lang with
  | none => rw [hg] at h; cases h
  | some tr => rw [hg] at h; cases h; rfl

theorem filterMap_card_id_sublist (g : Nat → Option Card)
    (hg : ∀ i c, g i = some c → c.id = i) :
    ∀ ids : List Nat, ((ids.filterMap g).map Card.id).Sublist ids
  | [] => by simp
  | i :: is => by
    cases hgi : g i with
    | none =>
      simp only [List.filterMap_cons, hgi]
      exact (filterMap_card_id_sublist g hg is).cons i
    | some c =>
      simp only [List.filterMap_cons, hgi, List.map_cons]
      rw [hg i c hgi]
      exact (filterMap_card_id_sublist g hg is).cons₂ i

theorem mem_dedupAgainst_fst (i : Nat) : ∀ (l used : List Nat),
    i ∈ (dedupAgainst used l).1 ↔ i ∈ l ∧ i ∉ used
  | [], used => by simp [dedupAgainst]
  | j :: js, used => by
    by_cases hj : j ∈ used
    · rw [dedupAgainst, if_pos hj, mem_dedupAgainst_fst i js used]
      constructor
      · rintro ⟨h1, h2⟩
        exact ⟨List.mem_cons_of_mem _ h1, h2⟩
      · rintro ⟨h1, h2⟩
        rcases List.mem_cons.mp h1 with rfl | h1
        · exact absurd hj h2
        · exact ⟨h1, h2⟩
    · rw [dedupAgainst, if_neg hj]
      simp only [List.mem_cons]
      rw [mem_dedupAgainst_fst i js (j :: used)]
      constructor
      · rintro (rfl | ⟨h1, h2⟩)
        · exact ⟨Or.inl rfl, hj⟩
        · exact ⟨Or.inr h1, fun hu => h2 (List.mem_cons_of_mem _ hu)⟩
      · rintro ⟨h1 | h1, h2⟩
        · exact Or.inl h1
        · by_cases hij : i = j
          · exact Or.inl hij
          · exact Or.inr ⟨h1, fun hu => (List.mem_cons.mp hu).elim hij h2⟩

theorem mem_dedupAgainst_snd (i : Nat) : ∀ (l used : List Nat),
    i ∈ (dedupAgainst used l).2 ↔ i ∈ used ∨ i ∈ l
  | [], used => by simp [dedupAgainst]
  | j :: js, used => by
    by_cases hj : j ∈ used
    · rw [dedupAgainst, if_pos hj, mem_dedupAgainst_snd i js used]
      constructor
      · rintro (h1 | h1)
        · exact Or.inl h1
        · exact Or.inr (List.mem_cons_of_mem _ h1)
      · rintro (h1 | h1)
        · exact Or.inl h1
        · rcases List.mem_cons.mp h1 with rfl | h1
          · exact Or.inl hj
          · exact Or.inr h1
    · rw [dedupAgainst, if_neg hj, mem_dedupAgainst_snd i js (j :: used)]
      simp only [List.mem_cons]
      tauto

theorem dedupAgainst_fst_sublist : ∀ (l used : List Nat),
    (dedupAgainst used l).1.Sublist l
  | [], used => by simp [dedupAgainst]
  | j :: js, used => by
    by_cases hj : j ∈ used
    · rw [dedupAgainst, if_pos hj]
      exact (dedupAgainst_fst_sublist js used).cons j
    · rw [dedupAgainst, if_neg hj]
      exact (dedupAgainst_fst_sublist js (j :: used)).cons₂ j

/-! ## Claim theorems -/

/-- C8: `get_articles_cache_version` returns the stored integer and
stores 1 with no expiry for the absent key; `bump` increments when the
atomic increment works and falls back to read-then-write when it raises
(absent key); in a single-threaded run the version read after a bump is
strictly greater than the version read before it. -/
theorem C8_cache_version_store :
    get_articles_cache_version none = (1, some (1, none))
  ∧ (∀ (v : Int) (tt : Option Nat),
      get_articles_cache_version (some (v, tt)) = (v, some (v, tt)))
  ∧ (∀ (v : Int) (tt : Option Nat),
      bump_articles_cache_version (some (v, tt)) = some (v + 1, tt))
  ∧ cache_incr none = none
  ∧ bump_articles_cache_version none = some (2, none)
  ∧ (∀ c : CacheSlot,
      (get_articles_cache_version c).1 <
        (get_articles_cache_version
          (bump_articles_cache_version (get_articles_cache_version c).2)).1) := by
  refine ⟨rfl, fun v tt => rfl, fun v tt => rfl, rfl, rfl, fun c => ?_⟩
  rcases c with _ | ⟨v, tt⟩
  · simp [get_articles_cache_version, bump_articles_cache_version, cache_incr]
  · simp [get_articles_cache_version, bump_articles_cache_version, cache_incr]

/-- C9, counterexample: the source normalization replaces every
case-sensitive occurrence of "ROLE_", not just a leading one, so the role
string "SUPER_ROLE_ADMIN" reaches level 5 and passes an ADMIN check, while
the claim's strip-a-"ROLE_"-prefix-then-uppercase normalization leaves it
unrecognized at level 0, which would require a PermissionError. -/
theorem C9_counterexample :
    require_min_role_raises "SUPER_ROLE_ADMIN" "ADMIN" = false
  ∧ get_role_level "SUPER_ROLE_ADMIN" = 5
  ∧ claim_role_level "SUPER_ROLE_ADMIN" = 0
  ∧ claim_role_level "ADMIN" = 4 := by decide

/-- C9, amended: `require_min_role` raises exactly when the actor's level
is below the minimum's, where a level is looked up after normalization
that replaces every occurrence of "ROLE_" (case-sensitively, before
uppercasing), trims whitespace and uppercases; the actor's role is
normalized twice (once in `require_min_role` and again inside
`get_role_level`) and the minimum once; the five known roles map to
1..5 in the claimed order and unrecognized roles map to 0. -/
theorem C9_amended (actor minRole : String) :
    (require_min_role_raises actor minRole = true ↔
      (ROLE_LEVELS (normalize_role (normalize_role actor))).getD 0
        < (ROLE_LEVELS (normalize_role minRole)).getD 0)
  ∧ get_role_level "CONTRIBUTOR" = 1
  ∧ get_role_level "EDITOR" = 2
  ∧ get_role_level "PUBLISHER" = 3
  ∧ get_role_level "ADMIN" = 4
  ∧ get_role_level "SUPER_ADMIN" = 5
  ∧ get_role_level "INTERN" = 0
  ∧ normalize_role " role_Admin " = "ROLE_ADMIN"
  ∧ require_min_role_raises " role_Admin " "ADMIN" = false := by
  refine ⟨?_, by decide, by decide, by decide, by decide, by decide, by decide,
    by decide, by decide⟩
  simp [require_min_role_raises, get_role_level]

theorem C9_amended_witness : require_min_role_raises "EDITOR" "PUBLISHER" = true := by
  have h := (C9_amended "EDITOR" "PUBLISHER").1
  exact h.mpr (by decide)

/-- C4: the reject transition saves status=REJECTED and sends its
notification, but never bumps the articles cache version (and its handler
falls through without returning a response): the version read after the
transition equals the version read before it, contradicting the claim
that every transition strictly increases it. -/
theorem C4_reject_skips_cache_bump :
    (article_reject_patch "11" artC4 (some (7, none)) []).article.status = "REJECTED"
  ∧ (article_reject_patch "11" artC4 (some (7, none)) []).notifications
      = ["notify_on_reject"]
  ∧ (article_reject_patch "11" artC4 (some (7, none)) []).cache = some (7, none)
  ∧ (get_articles_cache_version
        (article_reject_patch "11" artC4 (some (7, none)) []).cache).1
      = (get_articles_cache_version (some (7, none))).1
  ∧ (article_reject_patch "11" artC4 (some (7, none)) []).response
      = HttpOutcome.noResponse := by decide

/-- C5, counterexample: deactivating a DRAFT article (not PUBLISHED)
succeeds with 200 and mutates it to INACTIVE, and activating that same
DRAFT article (not INACTIVE) also succeeds and sets noindex, where the
claim requires both actions to be rejected with no state mutation. -/
theorem C5_counterexample :
    artC5.status = "DRAFT"
  ∧ artC5.noindex = false
  ∧ (deactivate_article_patch "PUBLISHER" "1" artC5 none []).response
      = HttpOutcome.ok "inactive"
  ∧ (deactivate_article_patch "PUBLISHER" "1" artC5 none []).article.status
      = "INACTIVE"
  ∧ (activate_article_patch "PUBLISHER" "1" artC5 none []).response
      = HttpOutcome.ok "active"
  ∧ (activate_article_patch "PUBLISHER" "1" artC5 none []).article.noindex
      = true := by decide

/-- C5, amended: for an actor at level PUBLISHER or above, deactivate
sets status=INACTIVE and noindex=true and activate sets status=DRAFT and
noindex=true regardless of the article's current status (the source
checks no precondition on the status); below PUBLISHER both actions are
rejected with 403 and no mutation. -/
theorem C5_amended (role uid : String) (a : Article) (c : CacheSlot) (ns : List String) :
    (require_min_role_raises role "PUBLISHER" = false →
        (deactivate_article_patch role uid a c ns).response = HttpOutcome.ok "inactive"
      ∧ (deactivate_article_patch role uid a c ns).article.status = "INACTIVE"
      ∧ (deactivate_article_patch role uid a c ns).article.noindex = true
      ∧ (activate_article_patch role uid a c ns).response = HttpOutcome.ok "active"
      ∧ (activate_article_patch role uid a c ns).article.status = "DRAFT"
      ∧ (activate_article_patch role uid a c ns).article.noindex = true)
  ∧ (require_min_role_raises role "PUBLISHER" = true →
        (deactivate_article_patch role uid a c ns).response = HttpOutcome.forbidden
      ∧ (deactivate_article_patch role uid a c ns).article = a
      ∧ (activate_article_patch role uid a c ns).response = HttpOutcome.forbidden
      ∧ (activate_article_patch role uid a c ns).article = a) := by
  constructor
  · intro h
    simp [deactivate_article_patch, activate_article_patch, h]
  · intro h
    simp [deactivate_article_patch, activate_article_patch, h]

theorem C5_amended_witness :
    (deactivate_article_patch "ADMIN" "2" artC5 none []).article.status = "INACTIVE" := by
  have h := (C5_amended "ADMIN" "2" artC5 none []).1 (by decide)
  exact h.2.1

/-- C6, counterexample: for an article missing both the Telugu
translation and any category, the 400 carries the Telugu message (that
guard runs first), not "At least 1 category required" as the claim
states for every article without a category. -/
theorem C6_counterexample :
    artC6.category_ids = []
  ∧ (move_to_review_patch "1" artC6 none []).response
      = HttpOutcome.badRequest "Telugu translation (te) required"
  ∧ (move_to_review_patch "1" artC6 none []).response
      ≠ HttpOutcome.badRequest "At least 1 category required" := by decide

/-- C6, amended: submit-for-review succeeds and sets status=REVIEW iff a
Telugu translation and at least one category exist; a missing Telugu
translation fails first with its own 400 message; when Telugu exists but
no category is assigned the 400 carries "At least 1 category required";
every failure leaves the article unchanged. -/
theorem C6_amended (uid : String) (a : Article) (c : CacheSlot) (ns : List String) :
    ((move_to_review_patch uid a c ns).response = HttpOutcome.ok "review" ↔
        has_te a = true ∧ a.category_ids ≠ [])
  ∧ ((move_to_review_patch uid a c ns).response = HttpOutcome.ok "review" →
        (move_to_review_patch uid a c ns).article.status = "REVIEW")
  ∧ (has_te a = false →
        (move_to_review_patch uid a c ns).response
            = HttpOutcome.badRequest "Telugu translation (te) required"
      ∧ (move_to_review_patch uid a c ns).article = a)
  ∧ (has_te a = true → a.category_ids = [] →
        (move_to_review_patch uid a c ns).response
            = HttpOutcome.badRequest "At least 1 category required"
      ∧ (move_to_review_patch uid a c ns).article = a) := by
  by_cases h1 : has_te a = false
  · simp [move_to_review_patch, h1]
  · rw [Bool.not_eq_false] at h1
    by_cases h2 : a.category_ids = []
    · simp [move_to_review_patch, h1, h2]
    · simp [move_to_review_patch, h1, h2]

theorem C6_amended_witness :
    (move_to_review_patch "1" artC6b none []).response = HttpOutcome.ok "review" := by
  have h := (C6_amended "1" artC6b none []).1
  exact h.mpr ⟨by decide, by decide⟩

/-- C3, counterexample: for an article holding both an English and a
Telugu translation, the public card builder called with the default
language `"te"` renders the Telugu title, while the claimed
English → Telugu → first-available fallback would render the English one:
`prepare_article_card` resolves requested-language → Telugu, not the §3
fallback order. -/
theorem C3_counterexample :
    spec_resolve_title artC3 = "English Title"
  ∧ (prepare_article_card artC3 "te").map Card.title = some "Telugu Title"
  ∧ (prepare_article_card artC3 "te").map Card.title
      ≠ some (spec_resolve_title artC3) := by decide

/-- C3, amended: `prepare_article_card` (the card builder of the public
feed read paths) resolves the translation as requested language → Telugu
→ nothing (the card is dropped when neither exists), so card rendering
does not follow the English → Telugu → first-available order of §3; that
order is implemented by `Article.prioritized_title`, which agrees with
the spec's `resolve_title` whenever the stored language codes are already
lower-case and trimmed. -/
theorem C3_amended (a : Article) (lang : String) :
    ((∃ tr ∈ a.translations, tr.language = lang) →
        ∃ cd tr, prepare_article_card a lang = some cd ∧ tr ∈ a.translations
          ∧ tr.language = lang ∧ cd.title = tr.title)
  ∧ ((∀ tr ∈ a.translations, tr.language ≠ lang) →
      (∃ tr ∈ a.translations, tr.language = "te") →
        ∃ cd tr, prepare_article_card a lang = some cd ∧ tr ∈ a.translations
          ∧ tr.language = "te" ∧ cd.title = tr.title)
  ∧ ((∀ tr ∈ a.translations, tr.language ≠ lang ∧ tr.language ≠ "te") →
        prepare_article_card a lang = none)
  ∧ ((∀ tr ∈ a.translations, pyLowerStripStr tr.language = tr.language) →
        prioritized_title a = spec_resolve_title a) := by
  refine ⟨?_, ?_, ?_, ?_⟩
  · rintro ⟨tr, htr, hlang⟩
    have hs : (a.translations.find? (fun u => u.language == lang)).isSome := by
      refine List.find?_isSome.mpr ⟨tr, htr, ?_⟩
      simp [hlang]
    obtain ⟨tr0, hfind⟩ := Option.isSome_iff_exists.mp hs
    refine ⟨⟨a.id, a.slug, a.sec, tr0.title,
        if tr0.summary ≠ "" then tr0.summary else summary_from_content tr0.content⟩,
      tr0, ?_, List.mem_of_find?_eq_some hfind, ?_, rfl⟩
    · simp [prepare_article_card, get_article_translation, hfind]
    · simpa using List.find?_some hfind
  · intro hnone hte
    have h1 : a.translations.find? (fun u => u.language == lang) = none := by
      refine List.find?_eq_none.mpr fun x hx => ?_
      simp [hnone x hx]
    obtain ⟨tr, htr, hlang⟩ := hte
    have hs : (a.translations.find? (fun u => u.language == "te")).isSome := by
      refine List.find?_isSome.mpr ⟨tr, htr, ?_⟩
      simp [hlang]
    obtain ⟨tr0, hfind⟩ := Option.isSome_iff_exists.mp hs
    refine ⟨⟨a.id, a.slug, a.sec, tr0.title,
        if tr0.summary ≠ "" then tr0.summary else summary_from_content tr0.content⟩,
      tr0, ?_, List.mem_of_find?_eq_some hfind, ?_, rfl⟩
    · simp [prepare_article_card, get_article_translation, h1, hfind]
    · simpa using List.find?_some hfind
  · intro hnone
    have h1 : a.translations.find? (fun u => u.language == lang) = none := by
      refine List.find?_eq_none.mpr fun x hx => ?_
      simp [(hnone x hx).1]
    have h2 : a.translations.find? (fun u => u.language == "te") = none := by
      refine List.find?_eq_none.mpr fun x hx => ?_
      simp [(hnone x hx).2]
    simp [prepare_article_card, get_article_translation, h1, h2]
  · intro hnorm
    unfold prioritized_title spec_resolve_title
    rw [find?_congr_mem (fun u => pyLowerStripStr u.language == "en")
          (fun u => u.language == "en") a.translations
          (fun x hx => by
            show (pyLowerStripStr x.language == "en") = (x.language == "en")
            rw [hnorm x hx]),
        find?_congr_mem (fun u => pyLowerStripStr u.language == "te")
          (fun u => u.language == "te") a.translations
          (fun x hx => by
            show (pyLowerStripStr x.language == "te") = (x.language == "te")
            rw [hnorm x hx])]

theorem C3_amended_witness :
    ∃ cd tr, prepare_article_card artC3 "en" = some cd ∧ tr ∈ artC3.translations
      ∧ tr.language = "en" ∧ cd.title = tr.title := by
  have h := (C3_amended artC3 "en").1
  exact h ⟨⟨"en", "English Title", "c", ""⟩, by decide, rfl⟩

/-- C2: publish succeeds (200, body "published") iff the article is in
REVIEW, has a Telugu translation and the actor's computed role level is
at least PUBLISHER's; success sets status=PUBLISHED, noindex=false,
published_at=now; an insufficient role gives 403 and any other guard
failure a 400, in both cases leaving status, noindex and published_at
unchanged. -/
theorem C2_publish_guard (role uid : String) (a : Article) (c : CacheSlot)
    (ns : List String) (t : Int) :
    ((publish_article_patch role uid a c ns t).response = HttpOutcome.ok "published" ↔
        a.status = "REVIEW" ∧ has_te a = true
          ∧ get_role_level "PUBLISHER" ≤ get_role_level (normalize_role role))
  ∧ ((publish_article_patch role uid a c ns t).response = HttpOutcome.ok "published" →
        (publish_article_patch role uid a c ns t).article.status = "PUBLISHED"
      ∧ (publish_article_patch role uid a c ns t).article.noindex = false
      ∧ (publish_article_patch role uid a c ns t).article.published_at = some t)
  ∧ (get_role_level (normalize_role role) < get_role_level "PUBLISHER" →
        (publish_article_patch role uid a c ns t).response = HttpOutcome.forbidden
      ∧ (publish_article_patch role uid a c ns t).article = a)
  ∧ ((publish_article_patch role uid a c ns t).response ≠ HttpOutcome.ok "published" →
        (publish_article_patch role uid a c ns t).article.status = a.status
      ∧ (publish_article_patch role uid a c ns t).article.noindex = a.noindex
      ∧ (publish_article_patch role uid a c ns t).article.published_at = a.published_at)
  ∧ (get_role_level "PUBLISHER" ≤ get_role_level (normalize_role role) →
      (publish_article_patch role uid a c ns t).response ≠ HttpOutcome.ok "published" →
        ∃ msg, (publish_article_patch role uid a c ns t).response
          = HttpOutcome.badRequest msg) := by
  by_cases hlt : get_role_level (normalize_role role) < get_role_level "PUBLISHER"
  · have hb : require_min_role_raises role "PUBLISHER" = true := by
      simp [require_min_role_raises, hlt]
    refine ⟨?_, ?_, ?_, ?_, ?_⟩ <;>
      simp [publish_article_patch, hb] <;>
      omega
  · have hb : require_min_role_raises role "PUBLISHER" = false := by
      simp [require_min_role_raises]
      omega
    by_cases hst : a.status = "REVIEW"
    · by_cases hte : has_te a = true
      · refine ⟨?_, ?_, ?_, ?_, ?_⟩ <;>
          simp [publish_article_patch, hb, hst, hte] <;>
          omega
      · have hte' : has_te a = false := by
          simpa using hte
        refine ⟨?_, ?_, ?_, ?_, ?_⟩ <;>
          simp [publish_article_patch, hb, hst, hte'] <;>
          omega
    · refine ⟨?_, ?_, ?_, ?_, ?_⟩ <;>
        simp [publish_article_patch, hb, hst] <;>
        omega

theorem C2_publish_witness :
    (publish_article_patch "PUBLISHER" "9" artC2 none [] 5).response
      = HttpOutcome.ok "published"
  ∧ (publish_article_patch "PUBLISHER" "9" artC2 none [] 5).article.status
      = "PUBLISHED" := by
  have h := C2_publish_guard "PUBLISHER" "9" artC2 none [] 5
  have hok := h.1.mpr ⟨by decide, by decide, by decide⟩
  exact ⟨hok, (h.2.1 hok).1⟩

/-- C1: on a full TOP board (10 active rows, ranks 1..10) pinning an 11th
PUBLISHED article commits the new active row and then crashes: the
capacity sweep `live_qs[limit:].update(...)` raises `TypeError` ("Cannot
update a query once a slice has been taken"), so the request returns 500
with 11 active rows left on the board, none deactivated and none stamped
with `end_at` — the capacity invariant claimed (and intended by the
source's "enforce limits" comment) is violated. -/
theorem C1_capacity_enforcement_crashes :
    pin_feature_post "EDITOR" artC1 "TOP" "" 11 dbC1 (some (1, none))
      = PinResult.serverError (dbC1 ++ [newFeatC1]) (some (1, none))
  ∧ (activeFor (dbC1 ++ [newFeatC1]) "TOP" "").length = 11
  ∧ FEATURE_LIMITS "TOP" = 10
  ∧ ((dbC1 ++ [newFeatC1]).all fun f => f.is_active && f.end_at == none) = true := by
  decide

/-- C10: on a full HERO board whose 5 active rows all precede the new pin
in (rank asc, id desc) order, the excess tail of the sweep is exactly the
just-pinned row — but instead of deactivating it and answering 200
"featured", the sliced-queryset `update()` raises, the request returns
500, and the just-pinned row stays active. -/
theorem C10_overflow_pin_is_500_not_featured :
    pin_feature_post "EDITOR" artC10 "HERO" "" 9 dbC10 (some (1, none))
      = PinResult.serverError (dbC10 ++ [newFeatC10]) (some (1, none))
  ∧ (dbC10 ++ [newFeatC10]).find? (fun f => f.id == 6) = some newFeatC10
  ∧ newFeatC10.is_active = true
  ∧ (sortFeat (activeFor (dbC10 ++ [newFeatC10]) "HERO" "")).drop (FEATURE_LIMITS "HERO")
      = [newFeatC10] := by decide

/-- C7: the four home-feed id lists are deduplicated in priority order
HERO > BREAKING > TOP > MUST_READ with first-seen-wins (an id in a
higher-priority list never appears in a later one), each deduplicated
list is a subsequence of its input, the cards fetched for an id list keep
the ids' original order (their id projection is a subsequence of the
input ids), and an id with no resolvable article yields no card. -/
theorem C7_home_feed (hero breaking top mr : List Nat) (db : List Article)
    (lang : String) (t : Int) :
    (∀ i, i ∈ (home_feed_dedup hero breaking top mr).1 ↔ i ∈ hero)
  ∧ (∀ i, i ∈ (home_feed_dedup hero breaking top mr).2.1 ↔
        i ∈ breaking ∧ i ∉ hero)
  ∧ (∀ i, i ∈ (home_feed_dedup hero breaking top mr).2.2.1 ↔
        i ∈ top ∧ i ∉ hero ∧ i ∉ breaking)
  ∧ (∀ i, i ∈ (home_feed_dedup hero breaking top mr).2.2.2 ↔
        i ∈ mr ∧ i ∉ hero ∧ i ∉ breaking ∧ i ∉ top)
  ∧ (home_feed_dedup hero breaking top mr).1.Sublist hero
  ∧ (home_feed_dedup hero breaking top mr).2.1.Sublist breaking
  ∧ (home_feed_dedup hero breaking top mr).2.2.1.Sublist top
  ∧ (home_feed_dedup hero breaking top mr).2.2.2.Sublist mr
  ∧ (∀ ids, ((fetch_articles_preserve_order db ids lang t).map Card.id).Sublist ids)
  ∧ (∀ ids i, (∀ a ∈ db, a.id = i → resolvable t a = false) →
        ∀ cd ∈ fetch_articles_preserve_order db ids lang t, cd.id ≠ i) := by
  refine ⟨?_, ?_, ?_, ?_, ?_, ?_, ?_, ?_, ?_, ?_⟩
  · intro i
    simp only [home_feed_dedup]
    rw [mem_dedupAgainst_fst]
    simp
  · intro i
    simp only [home_feed_dedup]
    rw [mem_dedupAgainst_fst, mem_dedupAgainst_snd]
    simp
  · intro i
    simp only [home_feed_dedup]
    rw [mem_dedupAgainst_fst, mem_dedupAgainst_snd, mem_dedupAgainst_snd]
    simp only [List.not_mem_nil, false_or, not_or]
  · intro i
    simp only [home_feed_dedup]
    rw [mem_dedupAgainst_fst, mem_dedupAgainst_snd, mem_dedupAgainst_snd,
      mem_dedupAgainst_snd]
    simp only [List.not_mem_nil, false_or, not_or]
    tauto
  · exact dedupAgainst_fst_sublist hero []
  · exact dedupAgainst_fst_sublist breaking _
  · exact dedupAgainst_fst_sublist top _
  · exact dedupAgainst_fst_sublist mr _
  · intro ids
    have hrw : fetch_articles_preserve_order db ids lang t
        = ids.filterMap (fun i =>
            match (db.filter (fun a => ids.contains a.id && resolvable t a)).find?
                (fun a => a.id == i) with
            | none => none
            | some a => prepare_article_card a lang) := rfl
    rw [hrw]
    refine filterMap_card_id_sublist _ ?_ ids
    intro i cd h
    revert h
    cases hf : (db.filter (fun a => ids.contains a.id && resolvable t a)).find?
        (fun a => a.id == i) with
    | none => intro h; cases h
    | some a =>
      intro h
      have hid : a.id = i := by simpa using List.find?_some hf
      rw [prepare_article_card_id a lang cd h, hid]
  · intro ids i hres cd hcd
    have hrw : fetch_articles_preserve_order db ids lang t
        = ids.filterMap (fun j =>
            match (db.filter (fun a => ids.contains a.id && resolvable t a)).find?
                (fun a => a.id == j) with
            | none => none
            | some a => prepare_article_card a lang) := rfl
    rw [hrw] at hcd
    obtain ⟨j, hj, hgj⟩ := List.mem_filterMap.mp hcd
    revert hgj
    cases hf : (db.filter (fun a => ids.contains a.id && resolvable t a)).find?
        (fun a => a.id == j) with
    | none => intro hgj; cases hgj
    | some a =>
      intro hgj
      have hid : a.id = j := by simpa using List.find?_some hf
      have hmem := List.mem_of_find?_eq_some hf
      have hdb : a ∈ db := (List.mem_filter.mp hmem).1
      have hpred := (List.mem_filter.mp hmem).2
      have hres' : resolvable t a = true := by
        have := hpred
        simp only [Bool.and_eq_true] at this
        exact this.2
      have hcdid : cd.id = a.id := prepare_article_card_id a lang cd hgj
      intro hEq
      have haid : a.id = i := by rw [← hEq, hcdid]
      have : resolvable t a = false := hres a hdb haid
      rw [this] at hres'
      cases hres'

theorem C7_witness :
    ((fetch_articles_preserve_order dbC7 [9, 5] "te" 0).map Card.id).Sublist [9, 5]
  ∧ (2 ∈ (home_feed_dedup [1, 2] [2, 3] [] []).2.1 ↔ 2 ∈ [2, 3] ∧ 2 ∉ [1, 2]) := by
  have h := C7_home_feed [1, 2] [2, 3] [] [] dbC7 "te" 0
  exact ⟨h.2.2.2.2.2.2.2.2.1 [9, 5], h.2.1 2⟩
